import Mathlib

/-!
Verification development for `budget_script.py` (class `BudgetTracker`).

This file gives a shallow embedding of the pure core of the script: the
amount/date normalizer (`parse_amount`, `parse_date`), the three CSV source
adapters (`read_chase`, `read_discover`, `read_vibrant`), the category
mapping prompt (`prompt_category_mapping`), duplicate detection and
resolution (`find_duplicates`, `resolve_duplicates` and the filtering step
of `process_budget`), the monthly aggregator (`calculate_monthly_data`) and
the per-category budget averages of `create_budget_tracking_tab`.

Modeling conventions:
* Python `Decimal` values are modeled as exact rationals (`ℚ`).  Addition,
  subtraction, negation and `abs` on the `Decimal` values this script
  handles are exact, so the model coincides with the code there; `Decimal`
  division rounds to the 28-significant-digit context, which is modeled as
  exact division.
* Python `str` is modeled as `String`; `str.upper()` as ASCII upper-casing
  (the merchant keywords and category names in the script are ASCII).
* `dict` is modeled as an insertion-ordered association list, matching
  Python dict iteration order; `defaultdict` access is lookup with a
  default value.
* The interactive dialogs are modeled by explicit operator inputs: a
  `String → Option String` choice function for category-mapping prompts and
  a `Nat → Bool` checkbox assignment for duplicate resolution (each
  transaction index appears in at most one duplicate group, so a per-index
  checkbox function is faithful).
-/

/-- Python `str.upper()` restricted to ASCII, as used on the script's
descriptions and category names. -/
def upperAscii (s : String) : String := ⟨s.data.map Char.toUpper⟩

/-- Drop leading and trailing whitespace from a character list. -/
def trimChars (cs : List Char) : List Char :=
  ((cs.dropWhile Char.isWhitespace).reverse.dropWhile Char.isWhitespace).reverse

/-- Python `str.strip()`. -/
def pyStrip (s : String) : String := ⟨trimChars s.data⟩

/-- Contiguous-substring occurrence of `pat` in a character list, modeling
Python `pat in s`. -/
def subOf (pat : List Char) : List Char → Bool
  | [] => pat.isEmpty
  | c :: t => pat.isPrefixOf (c :: t) || subOf pat t

/-- Python `pat in s` for strings. -/
def strContainsSub (s pat : String) : Bool := subOf pat.data s.data

/-- First-match lookup in an insertion-ordered association list (Python
`dict` access / `dict.get`). -/
def lookupStr {α : Type} : List (String × α) → String → Option α
  | [], _ => none
  | (k', v) :: t, k => if k' = k then some v else lookupStr t k

/-- Python `d.get(k, Decimal('0'))`. -/
def getD0 (l : List (String × ℚ)) (k : String) : ℚ := (lookupStr l k).getD 0

/-- Python `d[k] += v` on a `defaultdict(lambda: Decimal('0'))`: add into the
existing entry, or append a fresh entry at the end (dicts preserve insertion
order). -/
def bump : List (String × ℚ) → String → ℚ → List (String × ℚ)
  | [], k, v => [(k, v)]
  | (k', v') :: t, k, v =>
      if k' = k then (k', v' + v) :: t else (k', v') :: bump t k v

/-! ### Date parsing (`parse_date`, lines 191-196) -/

/-- Result of `datetime.strptime(_, "%m/%d/%Y")`: a calendar date. -/
structure PyDate where
  year : Nat
  month : Nat
  day : Nat
deriving DecidableEq, Repr

/-- Gregorian leap-year rule used by `datetime`. -/
def isLeap (y : Nat) : Bool := y % 4 = 0 && (y % 100 ≠ 0 || y % 400 = 0)

/-- Days in a month, as enforced by `datetime`'s constructor. -/
def daysInMonth (y m : Nat) : Nat :=
  if m = 2 then (if isLeap y then 29 else 28)
  else if m = 4 || m = 6 || m = 9 || m = 11 then 30
  else 31

/-- Nonempty all-digit character list. -/
def allDigits (cs : List Char) : Bool := !cs.isEmpty && cs.all Char.isDigit

/-- Numeric value of a digit list. -/
def toNatDigits (cs : List Char) : Nat :=
  cs.foldl (fun a c => a * 10 + (c.toNat - 48)) 0

/-- Python `s.split('/')` on a character list. -/
def splitSlash : List Char → List (List Char)
  | [] => [[]]
  | c :: t =>
    let r := splitSlash t
    if c = '/' then [] :: r
    else
      match r with
      | [] => [[c]]
      | h :: t2 => (c :: h) :: t2

/-- Model of `parse_date` (lines 191-196): `datetime.strptime(date_str.strip(),
"%m/%d/%Y")`, returning `none` on any failure.  CPython's `%m` and `%d`
match one or two digits with values `1..12` / `1..31`, `%Y` matches exactly
four digits, the whole string must be consumed, and the `datetime`
constructor additionally checks the day against the month length and
requires `year ≥ 1`. -/
def parse_date (s : String) : Option PyDate :=
  match splitSlash (trimChars s.data) with
  | [ms, ds, ys] =>
    if allDigits ms && ms.length ≤ 2 && allDigits ds && ds.length ≤ 2
        && allDigits ys && ys.length = 4 then
      let m := toNatDigits ms
      let d := toNatDigits ds
      let y := toNatDigits ys
      if 1 ≤ y && 1 ≤ m && m ≤ 12 && 1 ≤ d && d ≤ daysInMonth y m then
        some ⟨y, m, d⟩
      else none
    else none
  | _ => none

/-! ### Amount parsing (`parse_amount`, lines 198-205) -/

/-- Components of a numeric string accepted by Python's `Decimal`
constructor: sign, unscaled mantissa (integer and fraction digits), number
of fraction digits, and exponent.  The non-finite `Infinity`/`NaN` forms
and digit-group underscores lie outside the currency fragment the script
handles and are not modeled. -/
structure DecParse where
  neg : Bool
  mant : Nat
  scale : Nat
  exp10 : Int
deriving DecidableEq, Repr

/-- Exact numeric value of a parsed decimal string:
`sign · mant · 10 ^ exp10 / 10 ^ scale`, written with `mkRat` over integer
arithmetic so that it evaluates by kernel reduction. -/
def DecParse.val (p : DecParse) : ℚ :=
  let m : Int := if p.neg then -(p.mant : Int) else (p.mant : Int)
  if 0 ≤ p.exp10 then mkRat (m * ((10 ^ p.exp10.toNat : Nat) : Int)) (10 ^ p.scale)
  else mkRat m (10 ^ p.scale * 10 ^ (-p.exp10).toNat)

/-- Read an optional leading sign; `true` means negative. -/
def readSign : List Char → Bool × List Char
  | '+' :: t => (false, t)
  | '-' :: t => (true, t)
  | cs => (false, cs)

/-- Parse of a `Decimal` numeric string: `[sign] (digits ['.' [digits]] |
'.' digits) [('e'|'E') [sign] digits]`, consuming the whole string. -/
def decRead (s : String) : Option DecParse :=
  let sgn := readSign s.data
  let ipr := sgn.2.span Char.isDigit
  let fracPart : Option (List Char × List Char) :=
    match ipr.2 with
    | '.' :: r2 =>
      let fpr := r2.span Char.isDigit
      if ipr.1.isEmpty && fpr.1.isEmpty then none else some fpr
    | _ => if ipr.1.isEmpty then none else some ([], ipr.2)
  match fracPart with
  | none => none
  | some (fp, r3) =>
    match r3 with
    | [] => some ⟨sgn.1, toNatDigits (ipr.1 ++ fp), fp.length, 0⟩
    | e :: r4 =>
      if e = 'e' || e = 'E' then
        let esgn := readSign r4
        let edr := esgn.2.span Char.isDigit
        if edr.1.isEmpty || !edr.2.isEmpty then none
        else
          some ⟨sgn.1, toNatDigits (ipr.1 ++ fp), fp.length,
            if esgn.1 then -(toNatDigits edr.1 : Int) else (toNatDigits edr.1 : Int)⟩
      else none

/-- The cleaning step of `parse_amount`: `amount_str.replace("$",
"").replace(",", "").strip()`. -/
def cleanAmount (s : String) : String :=
  ⟨trimChars (s.data.filter (fun c => !(c = '$' || c = ',')))⟩

/-- Model of `parse_amount` (lines 198-205): strip `$` and thousands separators,
`strip()`, then `Decimal(clean)`; any parse failure yields `Decimal("0")`. -/
def parse_amount (s : String) : ℚ :=
  ((decRead (cleanAmount s)).map DecParse.val).getD 0

/-! ### Transaction model and category tables (lines 17-63) -/

/-- Python `abs` on `Decimal`, written with `Rat.blt`-based comparison so it
evaluates by kernel reduction. -/
def qabs (q : ℚ) : ℚ := if q < 0 then -q else q

/-- Issuer tag (`'source'` field). -/
inductive TSource
  | chase
  | discover
  | vibrant
deriving DecidableEq, Repr

/-- A canonical transaction record as built by the three adapters (the
`original_row` backreference carried by the Python dict is not used by any
downstream computation and is omitted). -/
structure Transaction where
  source : TSource
  date : PyDate
  description : String
  category : String
  amount : ℚ
deriving DecidableEq, Repr

/-- Model of `self.standard_categories` (lines 38-50). -/
def standard_categories : List String :=
  ["Health & Wellness", "Food & Drink", "Gas", "Travel", "Shopping",
   "Groceries", "Professional Services", "Gifts and Donations", "Personal",
   "Entertainment", "Bills & Utilities"]

/-- Model of `self.discover_to_chase` (lines 52-63), insertion-ordered. -/
def discover_to_chase : List (String × String) :=
  [("Merchandise", "Shopping"), ("Restaurants", "Food & Drink"),
   ("Supermarkets", "Groceries"), ("Medical Services", "Health & Wellness"),
   ("Gasoline", "Gas"), ("Education", "Professional Services"),
   ("Travel/ Entertainment", "Travel"), ("Automotive", "Shopping"),
   ("Services", "Professional Services")]

/-! ### Chase adapter (`read_chase`, lines 207-246) -/

/-- One row of a Chase CSV, by the header names the code reads.  A missing
or empty `Transaction Date` cell is modeled as the empty string (`row.get`
returning a falsy value). -/
structure ChaseRow where
  transactionDate : String
  rowType : String
  description : String
  category : String
  amount : String
deriving DecidableEq, Repr

/-- Per-row body of the `read_chase` loop: `none` when the row is skipped
(empty date cell, `Payment` type, or unparseable date), otherwise the
transaction record appended to the result. -/
def chaseRowToTrans (row : ChaseRow) : Option Transaction :=
  if row.transactionDate = "" then none
  else if upperAscii (pyStrip row.rowType) = "PAYMENT" then none
  else
    match parse_date row.transactionDate with
    | none => none
    | some date =>
      let description := pyStrip row.description
      let category := pyStrip row.category
      let amount := parse_amount row.amount
      let category1 :=
        if strContainsSub (upperAscii description) "YMCA OF GREATER RICHMOND" then
          "Health & Wellness"
        else if strContainsSub (upperAscii description) "SLING.COM" then
          "Entertainment"
        else if strContainsSub (upperAscii description) "COLLEGE TRANSCRIPT" then
          "Professional Services"
        else category
      some ⟨TSource.chase, date, description, category1, amount⟩

/-- Model of `read_chase` (lines 207-246).  Here `merchant_rules` mirrors
`self.merchant_rules`, the merchant-rule mapping loaded from
`merchant_rules.json` (line 35): it is in scope for the whole run but the
adapter code never consults it. -/
def read_chase (merchant_rules : List (String × String)) (rows : List ChaseRow) :
    List Transaction :=
  rows.filterMap chaseRowToTrans

/-! ### Category-mapping prompt (`prompt_category_mapping`, lines 333-384) -/

/-- Model of `prompt_category_mapping` (lines 333-384).  Here `choice = some c` models the
operator pressing Save with value `c` selected (the dialog then writes
`category_map[original] = c` and returns `c`, falling back to
`current` when `c` is falsy); `choice = none` models dismissing the dialog,
which returns `current` and persists nothing.  Returns the resolved
category together with the updated category map. -/
def prompt_category_mapping (category_map : List (String × String))
    (choice : Option String) (original current : String) :
    String × List (String × String) :=
  match lookupStr category_map original with
  | some v => (v, category_map)
  | none =>
    match choice with
    | none => (current, category_map)
    | some c => ((if c = "" then current else c), category_map ++ [(original, c)])

/-! ### Discover adapter (`read_discover`, lines 248-294) -/

/-- One row of a Discover CSV, by the header names the code reads. -/
structure DiscoverRow where
  transDate : String
  description : String
  amount : String
  category : String
deriving DecidableEq, Repr

/-- Per-row body of the `read_discover` loop.  `op` supplies the operator's
choice for a category-mapping prompt, keyed by the unknown raw category the
dialog displays.  `none` when the row is skipped; otherwise the produced
transaction and the (possibly grown) category map. -/
def discoverRow (op : String → Option String) (category_map : List (String × String))
    (row : DiscoverRow) : Option (Transaction × List (String × String)) :=
  if row.transDate = "" then none
  else
    let category := pyStrip row.category
    if upperAscii category ∈ ["PAYMENTS AND CREDITS", "PAYMENTS", "CREDITS"] then none
    else
      match parse_date row.transDate with
      | none => none
      | some date =>
        let description := pyStrip row.description
        let amount := -parse_amount row.amount
        let chase_category := (lookupStr discover_to_chase category).getD category
        let chase_category1 :=
          if strContainsSub (upperAscii description) "WALMART" then "Groceries"
          else chase_category
        if chase_category1 ∈ standard_categories then
          some (⟨TSource.discover, date, description, chase_category1, amount⟩, category_map)
        else
          let pr := prompt_category_mapping category_map (op category) category chase_category1
          some (⟨TSource.discover, date, description, pr.1, amount⟩, pr.2)

/-- Model of `read_discover` (lines 248-294), threading `self.category_map` through
the rows (an interactive resolution persists immediately and is visible to
later rows).  `merchant_rules` mirrors `self.merchant_rules`, never
consulted.  Returns the transactions and the final category map. -/
def read_discover (merchant_rules : List (String × String))
    (op : String → Option String) (category_map : List (String × String))
    (rows : List DiscoverRow) : List Transaction × List (String × String) :=
  rows.foldl
    (fun acc row =>
      match discoverRow op acc.2 row with
      | none => acc
      | some (t, m) => (acc.1 ++ [t], m))
    ([], category_map)

/-! ### Vibrant adapter (`read_vibrant`, lines 296-331) -/

/-- One row of a Vibrant CSV, by the header names the code reads. -/
structure VibrantRow where
  effectiveDate : String
  description : String
  amount : String
deriving DecidableEq, Repr

/-- Per-row body of the `read_vibrant` loop: category is `"Income"` for
strictly positive amounts and the default `"Bills & Utilities"` otherwise. -/
def vibrantRowToTrans (row : VibrantRow) : Option Transaction :=
  if row.effectiveDate = "" then none
  else
    match parse_date row.effectiveDate with
    | none => none
    | some date =>
      let description := pyStrip row.description
      let amount := parse_amount row.amount
      let category := if 0 < amount then "Income" else "Bills & Utilities"
      some ⟨TSource.vibrant, date, description, category, amount⟩

/-- Model of `read_vibrant` (lines 296-331); it touches neither category table. -/
def read_vibrant (rows : List VibrantRow) : List Transaction :=
  rows.filterMap vibrantRowToTrans

/-! ### Duplicate detection and resolution (lines 386-465, 481-490) -/

/-- One step of filling `amount_groups` (a `defaultdict(list)` keyed by
`abs(trans['amount'])` in first-occurrence order): append the indexed
transaction to its key's group. -/
def addToGroup (acc : List (ℚ × List (Nat × Transaction))) (p : Nat × Transaction) :
    List (ℚ × List (Nat × Transaction)) :=
  match acc with
  | [] => [(qabs p.2.amount, [p])]
  | (k, g) :: t =>
      if k = qabs p.2.amount then (k, g ++ [p]) :: t
      else (k, g) :: addToGroup t p

/-- Model of `find_duplicates` (lines 386-401): group indexed transactions by
absolute amount, keep the groups with more than one member, in key
first-occurrence order. -/
def find_duplicates (ts : List Transaction) : List (List (Nat × Transaction)) :=
  ((ts.enum.foldl addToGroup []).filter (fun kg => 1 < kg.2.length)).map Prod.snd

/-- Model of `resolve_duplicates` (lines 403-465): the operator checks, per displayed
group member, whether it is a duplicate to be removed; `sel` gives the
checkbox value for each original transaction index (each index occurs in at
most one group, so indexing the checkboxes by original index is faithful).
Returns `indices_to_remove` as the list of checked indices in display
order. -/
def resolve_duplicates (groups : List (List (Nat × Transaction))) (sel : Nat → Bool) :
    List Nat :=
  groups.foldl (fun acc g => acc ++ (g.filter (fun p => sel p.1)).map Prod.fst) []

/-- The duplicate-handling step of `process_budget` (lines 481-490): when
duplicate groups exist, drop the transactions whose index the operator
checked; otherwise the list is left untouched. -/
def afterResolution (ts : List Transaction) (sel : Nat → Bool) : List Transaction :=
  let groups := find_duplicates ts
  if groups.isEmpty then ts
  else
    let removed := resolve_duplicates groups sel
    (ts.enum.filter (fun p => !removed.contains p.1)).map Prod.snd

/-! ### Monthly aggregation (`calculate_monthly_data`, lines 526-545) -/

/-- One month's bucket: income total, per-category spending
(`defaultdict(lambda: Decimal('0'))`, insertion-ordered) and total
spending. -/
structure MonthData where
  income : ℚ
  spending : List (String × ℚ)
  total_spending : ℚ
deriving DecidableEq, Repr

/-- The default bucket a `defaultdict` access creates. -/
def emptyMonth : MonthData := ⟨0, [], 0⟩

/-- Update the bucket stored at key `k`, creating the default bucket first
when the key is absent (`defaultdict` access followed by mutation). -/
def updMonth (l : List (String × MonthData)) (k : String) (f : MonthData → MonthData) :
    List (String × MonthData) :=
  match l with
  | [] => [(k, f emptyMonth)]
  | (k', d) :: t => if k' = k then (k', f d) :: t else (k', d) :: updMonth t k f

/-- Read the bucket at key `k` (default bucket when absent). -/
def lookupMonth (l : List (String × MonthData)) (k : String) : MonthData :=
  (lookupStr l k).getD emptyMonth

/-- Helper `pad2`: two-digit zero padding used by `strftime('%m')`. -/
def pad2 (n : Nat) : String := if n < 10 then "0" ++ toString n else toString n

/-- Helper `pad4`: four-digit zero padding used by `strftime('%Y')`. -/
def pad4 (n : Nat) : String :=
  if n < 10 then "000" ++ toString n
  else if n < 100 then "00" ++ toString n
  else if n < 1000 then "0" ++ toString n
  else toString n

/-- Month key `trans['date'].strftime('%Y-%m')`. -/
def monthKey (d : PyDate) : String := pad4 d.year ++ "-" ++ pad2 d.month

/-- Loop body of `calculate_monthly_data` (lines 534-543): a transaction
whose category is `'Income'` or whose amount is positive adds its amount to
the month's income; any other transaction adds its absolute amount to its
category's spending and to the month's total spending. -/
def monthStep (acc : List (String × MonthData)) (t : Transaction) :
    List (String × MonthData) :=
  let mk := monthKey t.date
  if t.category = "Income" ∨ 0 < t.amount then
    updMonth acc mk (fun d => { d with income := d.income + t.amount })
  else
    updMonth acc mk (fun d =>
      { d with
        spending := bump d.spending t.category (qabs t.amount),
        total_spending := d.total_spending + qabs t.amount })

/-- Model of `calculate_monthly_data` (lines 526-545). -/
def calculate_monthly_data (ts : List Transaction) : List (String × MonthData) :=
  ts.foldl monthStep []

/-! ### Budget estimation (`create_budget_tracking_tab`, lines 743-794) -/

/-- Model of `past_months` (line 774): the month keys other than the current
month. -/
def past_months (monthly : List (String × MonthData)) (current : String) : List String :=
  (monthly.map Prod.fst).filter (fun k => k ≠ current)

/-- The accumulation loop of lines 788-791: add every past month's
per-category spending entries into `category_budgets`. -/
def category_budgets_raw (monthly : List (String × MonthData)) (past : List String) :
    List (String × ℚ) :=
  past.foldl
    (fun acc m => (lookupMonth monthly m).spending.foldl (fun a p => bump a p.1 p.2) acc)
    []

/-- Model of `category_budgets` after the division loop of lines 793-794: every
accumulated entry is divided by the number of past months. -/
def category_budgets (monthly : List (String × MonthData)) (past : List String) :
    List (String × ℚ) :=
  (category_budgets_raw monthly past).map (fun p => (p.1, p.2 / (past.length : ℚ)))

/-! ### Statement vocabulary: filtered sums over the transaction list -/

/-- Sum of the amounts of a month's income-classified transactions (income
test of line 537: `trans['category'] == 'Income' or trans['amount'] > 0`). -/
def incomeSum (ts : List Transaction) (mk : String) : ℚ :=
  ((ts.filter (fun t =>
      decide (monthKey t.date = mk ∧ (t.category = "Income" ∨ 0 < t.amount)))).map
    (fun t => t.amount)).sum

/-- Sum of the absolute amounts of a month's spending-classified
transactions. -/
def spendSum (ts : List Transaction) (mk : String) : ℚ :=
  ((ts.filter (fun t =>
      decide (monthKey t.date = mk ∧ ¬(t.category = "Income" ∨ 0 < t.amount)))).map
    (fun t => qabs t.amount)).sum

/-- Sum of the absolute amounts of a month's spending-classified
transactions in one category. -/
def catSum (ts : List Transaction) (mk cat : String) : ℚ :=
  ((ts.filter (fun t =>
      decide (monthKey t.date = mk ∧ ¬(t.category = "Income" ∨ 0 < t.amount) ∧
        t.category = cat))).map
    (fun t => qabs t.amount)).sum

/-- Sum of the values of the entries of an association list at one key. -/
def entriesSum (entries : List (String × ℚ)) (c : String) : ℚ :=
  ((entries.filter (fun p => p.1 == c)).map Prod.snd).sum

/-- Bool test: index `i` is a member of some duplicate group of `ts`. -/
def inDupGroup (ts : List Transaction) (i : Nat) : Bool :=
  (find_duplicates ts).any (fun g => g.any (fun p => p.1 == i))

/-! ### Concrete inputs used by counterexamples and witnesses -/

/-- A persisted merchant rule whose key occurs in `c1row`'s description. -/
def c1rules : List (String × String) := [("STARBUCKS", "Food & Drink")]

/-- A Chase row whose description contains the `c1rules` key. -/
def c1row : ChaseRow := ⟨"01/15/2024", "Sale", "STARBUCKS STORE 1", "Shopping", "4.50"⟩

/-- The spec's Discover example row: `Amount=45.00, Category=Supermarkets,
Description=WALMART #123`. -/
def c1wrow : DiscoverRow := ⟨"01/15/2024", "WALMART #123", "45.00", "Supermarkets"⟩

/-- A category map sending the raw category of `c1wrow` elsewhere. -/
def c1wmap : List (String × String) := [("Supermarkets", "Shopping")]

/-- The transaction `c1wrow` produces. -/
def c1wtrans : Transaction :=
  ⟨TSource.discover, ⟨2024, 1, 15⟩, "WALMART #123", "Groceries", -45⟩

/-- Two transactions from different sources sharing an absolute amount. -/
def c2tA : Transaction := ⟨TSource.chase, ⟨2024, 1, 10⟩, "COFFEE SHOP", "Food & Drink", -20⟩

/-- Second member of the duplicate pair. -/
def c2tB : Transaction := ⟨TSource.vibrant, ⟨2024, 1, 10⟩, "ACH COFFEE", "Bills & Utilities", -20⟩

/-- A Discover row with the ampersand category variant. -/
def c3rowPC : DiscoverRow := ⟨"01/15/2024", "MYSTERY STORE", "5.00", "Payments & Credits"⟩

/-- A Discover row with a skipped category. -/
def c3skipRow : DiscoverRow := ⟨"01/15/2024", "PAYMENT RECEIVED", "5.00", "Credits"⟩

/-- A Discover row with an ordinary category and parseable date. -/
def c3keepRow : DiscoverRow := ⟨"01/15/2024", "GROCERY MART", "5.00", "Supermarkets"⟩

/-- A Chase row whose amount has three fractional digits. -/
def c4row : ChaseRow := ⟨"01/15/2024", "Sale", "ODD VENDOR", "Shopping", "1.005"⟩

/-- A Vibrant deposit row. -/
def c5vrow : VibrantRow := ⟨"03/02/2024", "PAYROLL DEPOSIT", "1000.00"⟩

/-- The transaction `c5vrow` produces. -/
def c5vt : Transaction := ⟨TSource.vibrant, ⟨2024, 3, 2⟩, "PAYROLL DEPOSIT", "Income", 1000⟩

/-- A Chase row with an issuer category outside the standard set. -/
def c5crow : ChaseRow := ⟨"01/20/2024", "Sale", "SOME SHOP", "Wholesale Clubs", "12.00"⟩

/-- The transaction `c5crow` produces. -/
def c5ct : Transaction := ⟨TSource.chase, ⟨2024, 1, 20⟩, "SOME SHOP", "Wholesale Clubs", 12⟩

/-- A transaction with category `'Income'` and a negative amount, as the
Chase adapter can produce from issuer data. -/
def c6t : Transaction := ⟨TSource.chase, ⟨2024, 1, 5⟩, "REFUND ADJ", "Income", -50⟩

/-- A valid Chase row. -/
def c7crow : ChaseRow := ⟨"02/03/2024", "Sale", "BOOK STORE", "Shopping", "-12.34"⟩

/-- The transaction `c7crow` produces. -/
def c7ct : Transaction := ⟨TSource.chase, ⟨2024, 2, 3⟩, "BOOK STORE", "Shopping", mkRat (-1234) 100⟩

/-- A valid Discover row with a raw positive (spending) amount. -/
def c7drow : DiscoverRow := ⟨"02/04/2024", "DINER", "7.50", "Restaurants"⟩

/-- The transaction `c7drow` produces. -/
def c7dt : Transaction := ⟨TSource.discover, ⟨2024, 2, 4⟩, "DINER", "Food & Drink", mkRat (-750) 100⟩

/-- A valid Vibrant row with a raw negative amount. -/
def c7vrow : VibrantRow := ⟨"02/05/2024", "ACH UTILITY", "-80.00"⟩

/-- The transaction `c7vrow` produces. -/
def c7vt : Transaction := ⟨TSource.vibrant, ⟨2024, 2, 5⟩, "ACH UTILITY", "Bills & Utilities", -80⟩

/-- A Chase `Payment`-type row, skipped by `read_chase`. -/
def c8pay : ChaseRow := ⟨"01/10/2024", "Payment", "Payment Thank You", "", "100.00"⟩

/-- An ordinary Chase row. -/
def c8ok : ChaseRow := ⟨"01/11/2024", "Sale", "GROCERY MART", "Groceries", "-5.00"⟩

/-- A Discover row with a skipped category. -/
def c8dskip : DiscoverRow := ⟨"01/12/2024", "PAYMENT RECEIVED", "50.00", "Payments"⟩

/-- Monthly data with two past months (one missing the category) and a
current month. -/
def c9monthly : List (String × MonthData) :=
  [("2024-01", ⟨0, [("Groceries", 50)], 50⟩),
   ("2024-02", ⟨0, [("Gas", 30)], 30⟩),
   ("2024-03", ⟨0, [("Groceries", 10)], 10⟩)]

/-- A Vibrant row whose amount parses to exactly zero. -/
def c10row : VibrantRow := ⟨"04/01/2024", "ZERO ADJ", "0.00"⟩

/-- The transaction `c10row` produces. -/
def c10t : Transaction := ⟨TSource.vibrant, ⟨2024, 4, 1⟩, "ZERO ADJ", "Bills & Utilities", 0⟩

/-! ### Association-list lemmas -/

theorem getD0_nil (c : String) : getD0 [] c = 0 := rfl

theorem getD0_cons (k : String) (v : ℚ) (t : List (String × ℚ)) (c : String) :
    getD0 ((k, v) :: t) c = if k = c then v else getD0 t c := by
  by_cases h : k = c <;> simp [getD0, lookupStr, h]

theorem lookupMonth_nil (c : String) : lookupMonth [] c = emptyMonth := rfl

theorem lookupMonth_cons (k : String) (d : MonthData) (t : List (String × MonthData))
    (c : String) :
    lookupMonth ((k, d) :: t) c = if k = c then d else lookupMonth t c := by
  by_cases h : k = c <;> simp [lookupMonth, lookupStr, h]

theorem getD0_bump (l : List (String × ℚ)) (k : String) (v : ℚ) (c : String) :
    getD0 (bump l k v) c = if c = k then getD0 l c + v else getD0 l c := by
  induction l with
  | nil =>
    by_cases h : c = k
    · subst h; simp [bump, getD0_cons, getD0_nil]
    · simp [bump, getD0_cons, getD0_nil, h, Ne.symm h]
  | cons hd tl ih =>
    obtain ⟨k', v'⟩ := hd
    by_cases hk : k' = k
    · subst hk
      by_cases hc : c = k'
      · subst hc; simp [bump, getD0_cons]
      · simp [bump, getD0_cons, hc, Ne.symm hc]
    · by_cases hc : c = k'
      · subst hc
        simp [bump, getD0_cons, hk]
      · simp [bump, getD0_cons, hk, Ne.symm hc, ih]

theorem entriesSum_cons (p : String × ℚ) (t : List (String × ℚ)) (c : String) :
    entriesSum (p :: t) c = (if p.1 = c then p.2 else 0) + entriesSum t c := by
  by_cases h : p.1 = c <;> simp [entriesSum, h]

theorem getD0_foldl_bump (entries : List (String × ℚ)) :
    ∀ (a : List (String × ℚ)) (c : String),
      getD0 (entries.foldl (fun a p => bump a p.1 p.2) a) c
        = getD0 a c + entriesSum entries c := by
  induction entries with
  | nil => intro a c; simp [entriesSum]
  | cons p t ih =>
    intro a c
    simp only [List.foldl_cons]
    rw [ih, getD0_bump, entriesSum_cons]
    by_cases h : c = p.1
    · rw [if_pos h, if_pos h.symm]; ring
    · rw [if_neg h, if_neg (Ne.symm h)]; ring

theorem entriesSum_eq_zero (l : List (String × ℚ)) (c : String)
    (h : c ∉ l.map Prod.fst) : entriesSum l c = 0 := by
  induction l with
  | nil => rfl
  | cons p t ih =>
    simp only [List.map_cons, List.mem_cons] at h
    push_neg at h
    rw [entriesSum_cons, ih h.2, if_neg (Ne.symm h.1)]
    ring

theorem getD0_eq_entriesSum (l : List (String × ℚ)) (c : String)
    (h : (l.map Prod.fst).Nodup) : getD0 l c = entriesSum l c := by
  induction l with
  | nil => rfl
  | cons p t ih =>
    simp only [List.map_cons, List.nodup_cons] at h
    rw [entriesSum_cons]
    obtain ⟨k', v'⟩ := p
    rw [getD0_cons]
    by_cases hc : k' = c
    · subst hc
      rw [entriesSum_eq_zero t k' h.1, if_pos rfl, if_pos rfl]
      ring
    · rw [if_neg hc, if_neg hc, ih h.2, zero_add]

theorem getD0_map_div (l : List (String × ℚ)) (n : ℚ) (c : String) :
    getD0 (l.map (fun p => (p.1, p.2 / n))) c = getD0 l c / n := by
  induction l with
  | nil => simp [getD0_nil]
  | cons p t ih =>
    obtain ⟨k', v'⟩ := p
    simp only [List.map_cons, getD0_cons]
    by_cases h : k' = c
    · rw [if_pos h, if_pos h]
    · rw [if_neg h, if_neg h, ih]

theorem lookupMonth_updMonth (l : List (String × MonthData)) (k : String)
    (f : MonthData → MonthData) (c : String) :
    lookupMonth (updMonth l k f) c
      = if c = k then f (lookupMonth l k) else lookupMonth l c := by
  induction l with
  | nil =>
    by_cases h : c = k
    · subst h; simp [updMonth, lookupMonth_cons, lookupMonth_nil]
    · simp [updMonth, lookupMonth_cons, lookupMonth_nil, h, Ne.symm h]
  | cons hd tl ih =>
    obtain ⟨k', d⟩ := hd
    by_cases hk : k' = k
    · subst hk
      by_cases hc : c = k'
      · subst hc; simp [updMonth, lookupMonth_cons]
      · simp [updMonth, lookupMonth_cons, hc, Ne.symm hc]
    · by_cases hc : c = k'
      · subst hc
        simp [updMonth, lookupMonth_cons, hk]
      · simp [updMonth, lookupMonth_cons, hk, Ne.symm hc, ih]

/-! ### Fold lemmas for the monthly aggregator -/

theorem incomeSum_cons (t : Transaction) (ts : List Transaction) (mk : String) :
    incomeSum (t :: ts) mk
      = (if monthKey t.date = mk ∧ (t.category = "Income" ∨ 0 < t.amount)
          then t.amount else 0) + incomeSum ts mk := by
  by_cases h : monthKey t.date = mk ∧ (t.category = "Income" ∨ 0 < t.amount) <;>
    simp [incomeSum, h]

theorem spendSum_cons (t : Transaction) (ts : List Transaction) (mk : String) :
    spendSum (t :: ts) mk
      = (if monthKey t.date = mk ∧ ¬(t.category = "Income" ∨ 0 < t.amount)
          then qabs t.amount else 0) + spendSum ts mk := by
  by_cases h : monthKey t.date = mk ∧ ¬(t.category = "Income" ∨ 0 < t.amount)
  · rw [if_pos h]
    unfold spendSum
    rw [List.filter_cons, if_pos (by rw [decide_eq_true_eq]; exact h),
      List.map_cons, List.sum_cons]
  · rw [if_neg h, zero_add]
    unfold spendSum
    rw [List.filter_cons, if_neg (by rw [decide_eq_true_eq]; exact h)]

theorem catSum_cons (t : Transaction) (ts : List Transaction) (mk cat : String) :
    catSum (t :: ts) mk cat
      = (if monthKey t.date = mk ∧ ¬(t.category = "Income" ∨ 0 < t.amount) ∧
            t.category = cat
          then qabs t.amount else 0) + catSum ts mk cat := by
  by_cases h : monthKey t.date = mk ∧ ¬(t.category = "Income" ∨ 0 < t.amount) ∧
      t.category = cat
  · rw [if_pos h]
    unfold catSum
    rw [List.filter_cons, if_pos (by rw [decide_eq_true_eq]; exact h),
      List.map_cons, List.sum_cons]
  · rw [if_neg h, zero_add]
    unfold catSum
    rw [List.filter_cons, if_neg (by rw [decide_eq_true_eq]; exact h)]

theorem income_foldl (ts : List Transaction) :
    ∀ (acc : List (String × MonthData)) (mk : String),
      (lookupMonth (ts.foldl monthStep acc) mk).income
        = (lookupMonth acc mk).income + incomeSum ts mk := by
  induction ts with
  | nil => intro acc mk; simp [incomeSum]
  | cons t ts ih =>
    intro acc mk
    simp only [List.foldl_cons]
    rw [ih, incomeSum_cons]
    by_cases hinc : t.category = "Income" ∨ 0 < t.amount
    · simp only [monthStep, if_pos hinc]
      rw [lookupMonth_updMonth]
      by_cases hmk : mk = monthKey t.date
      · rw [if_pos hmk, if_pos ⟨hmk.symm, hinc⟩]
        subst hmk
        dsimp only
        ring
      · rw [if_neg hmk, if_neg (fun hh => hmk hh.1.symm)]
        ring
    · simp only [monthStep, if_neg hinc]
      rw [lookupMonth_updMonth]
      rw [if_neg (fun hh : monthKey t.date = mk ∧ (t.category = "Income" ∨ 0 < t.amount) =>
        hinc hh.2)]
      by_cases hmk : mk = monthKey t.date
      · rw [if_pos hmk]
        subst hmk
        dsimp only
        ring
      · rw [if_neg hmk]
        ring

theorem total_foldl (ts : List Transaction) :
    ∀ (acc : List (String × MonthData)) (mk : String),
      (lookupMonth (ts.foldl monthStep acc) mk).total_spending
        = (lookupMonth acc mk).total_spending + spendSum ts mk := by
  induction ts with
  | nil => intro acc mk; simp [spendSum]
  | cons t ts ih =>
    intro acc mk
    simp only [List.foldl_cons]
    rw [ih, spendSum_cons]
    by_cases hinc : t.category = "Income" ∨ 0 < t.amount
    · simp only [monthStep, if_pos hinc]
      rw [lookupMonth_updMonth]
      rw [if_neg
        (fun hh : monthKey t.date = mk ∧ ¬(t.category = "Income" ∨ 0 < t.amount) =>
          hh.2 hinc)]
      by_cases hmk : mk = monthKey t.date
      · rw [if_pos hmk]
        subst hmk
        dsimp only
        ring
      · rw [if_neg hmk]
        ring
    · simp only [monthStep, if_neg hinc]
      rw [lookupMonth_updMonth]
      by_cases hmk : mk = monthKey t.date
      · rw [if_pos hmk, if_pos ⟨hmk.symm, hinc⟩]
        subst hmk
        dsimp only
        ring
      · rw [if_neg hmk, if_neg (fun hh => hmk hh.1.symm)]
        ring

theorem cat_foldl (ts : List Transaction) :
    ∀ (acc : List (String × MonthData)) (mk cat : String),
      getD0 (lookupMonth (ts.foldl monthStep acc) mk).spending cat
        = getD0 (lookupMonth acc mk).spending cat + catSum ts mk cat := by
  induction ts with
  | nil => intro acc mk cat; simp [catSum]
  | cons t ts ih =>
    intro acc mk cat
    simp only [List.foldl_cons]
    rw [ih, catSum_cons]
    by_cases hinc : t.category = "Income" ∨ 0 < t.amount
    · simp only [monthStep, if_pos hinc]
      rw [lookupMonth_updMonth]
      rw [if_neg
        (fun hh : monthKey t.date = mk ∧ ¬(t.category = "Income" ∨ 0 < t.amount) ∧
            t.category = cat =>
          hh.2.1 hinc)]
      by_cases hmk : mk = monthKey t.date
      · rw [if_pos hmk]
        subst hmk
        dsimp only
        ring
      · rw [if_neg hmk]
        ring
    · simp only [monthStep, if_neg hinc]
      rw [lookupMonth_updMonth]
      by_cases hmk : mk = monthKey t.date
      · rw [if_pos hmk]
        dsimp only
        rw [getD0_bump]
        by_cases hcat : cat = t.category
        · rw [if_pos hcat, if_pos ⟨hmk.symm, hinc, hcat.symm⟩]
          subst hmk
          ring
        · rw [if_neg hcat, if_neg (fun hh => hcat hh.2.2.symm)]
          subst hmk
          ring
      · rw [if_neg hmk, if_neg (fun hh => hmk hh.1.symm)]
        ring

/-! ### Fold lemmas for the budget estimator -/

theorem budget_fold_aux (monthly : List (String × MonthData)) (c : String) :
    ∀ (past : List String) (acc : List (String × ℚ)),
      getD0 (past.foldl
          (fun acc m =>
            (lookupMonth monthly m).spending.foldl (fun a p => bump a p.1 p.2) acc)
          acc) c
        = getD0 acc c
          + (past.map (fun m => entriesSum (lookupMonth monthly m).spending c)).sum := by
  intro past
  induction past with
  | nil => intro acc; simp
  | cons m t ih =>
    intro acc
    simp only [List.foldl_cons, List.map_cons, List.sum_cons]
    rw [ih, getD0_foldl_bump]
    ring

theorem getD0_category_budgets (monthly : List (String × MonthData))
    (past : List String) (c : String) :
    getD0 (category_budgets monthly past) c
      = (past.map (fun m => entriesSum (lookupMonth monthly m).spending c)).sum
          / (past.length : ℚ) := by
  unfold category_budgets
  rw [getD0_map_div]
  unfold category_budgets_raw
  rw [budget_fold_aux monthly c past []]
  rw [getD0_nil, zero_add]

/-! ### Lemmas about duplicate resolution -/

theorem contains_map_filter (g : List (Nat × Transaction)) (sel : Nat → Bool) (i : Nat) :
    ((g.filter (fun p => sel p.1)).map Prod.fst).contains i
      = g.any (fun p => p.1 == i && sel p.1) := by
  rw [Bool.eq_iff_iff]
  simp only [List.elem_iff, List.mem_map, List.mem_filter, List.any_eq_true,
    Bool.and_eq_true, beq_iff_eq]
  constructor
  · rintro ⟨p, ⟨hp, hsel⟩, hpi⟩
    exact ⟨p, hp, hpi, hsel⟩
  · rintro ⟨p, hp, hpi, hsel⟩
    exact ⟨p, ⟨hp, hsel⟩, hpi⟩

theorem contains_resolve_foldl (sel : Nat → Bool) (i : Nat) :
    ∀ (groups : List (List (Nat × Transaction))) (acc : List Nat),
      (groups.foldl (fun acc g => acc ++ (g.filter (fun p => sel p.1)).map Prod.fst)
          acc).contains i
        = (acc.contains i || groups.any (fun g => g.any (fun p => p.1 == i && sel p.1))) := by
  intro groups
  induction groups with
  | nil => intro acc; simp
  | cons g t ih =>
    intro acc
    simp only [List.foldl_cons, List.any_cons]
    rw [ih]
    rw [show ((acc ++ (g.filter (fun p => sel p.1)).map Prod.fst).contains i)
        = (acc.contains i || ((g.filter (fun p => sel p.1)).map Prod.fst).contains i) from by
      rw [Bool.eq_iff_iff]
      simp [List.mem_append]]
    rw [contains_map_filter, Bool.or_assoc]

theorem anyany_sel (groups : List (List (Nat × Transaction))) (sel : Nat → Bool) (i : Nat) :
    groups.any (fun g => g.any (fun p => p.1 == i && sel p.1))
      = (groups.any (fun g => g.any (fun p => p.1 == i)) && sel i) := by
  rw [Bool.eq_iff_iff]
  simp only [List.any_eq_true, Bool.and_eq_true, beq_iff_eq]
  constructor
  · rintro ⟨g, hg, p, hp, hpi, hpsel⟩
    exact ⟨⟨g, hg, p, hp, hpi⟩, hpi ▸ hpsel⟩
  · rintro ⟨⟨g, hg, p, hp, hpi⟩, hsel⟩
    exact ⟨g, hg, p, hp, hpi, hpi ▸ hsel⟩

theorem contains_resolve_duplicates (ts : List Transaction) (sel : Nat → Bool) (i : Nat) :
    (resolve_duplicates (find_duplicates ts) sel).contains i
      = (inDupGroup ts i && sel i) := by
  unfold resolve_duplicates
  rw [contains_resolve_foldl, anyany_sel]
  simp [inDupGroup]

/-! ### Claims -/

section Claims

attribute [local semireducible] Rat.add Rat.mul Rat.inv Rat.sub

/-- C1 counterexample: a Chase transaction whose uppercased description
contains the key of the persisted merchant rule `("STARBUCKS", "Food &
Drink")` keeps its issuer category `"Shopping"`; the rule's forced category
is not applied, so merchant-rule resolution as claimed does not happen. -/
theorem c1_counterexample :
    strContainsSub (upperAscii (pyStrip c1row.description)) "STARBUCKS" = true
      ∧ (read_chase c1rules [c1row]).map (fun t => t.category) = ["Shopping"] := by
  decide

/-- C1 (amended): the persisted merchant-rule mapping is never consulted by
any adapter — the adapters' output is independent of it; the only
description-keyword overrides are hardcoded (Chase: YMCA OF GREATER
RICHMOND, SLING.COM, COLLEGE TRANSCRIPT; Discover: WALMART).  The Discover
part of the claim does hold: a Discover row whose uppercased description
contains WALMART yields category `"Groceries"` whatever the category map
says. -/
theorem c1_hardcoded_overrides :
    (∀ (mr : List (String × String)) (rows : List ChaseRow),
        read_chase mr rows = read_chase [] rows)
      ∧ (∀ (mr : List (String × String)) (op : String → Option String)
            (cmap : List (String × String)) (rows : List DiscoverRow),
          read_discover mr op cmap rows = read_discover [] op cmap rows)
      ∧ (∀ (op : String → Option String) (cmap : List (String × String))
            (row : DiscoverRow) (t : Transaction) (m : List (String × String)),
          discoverRow op cmap row = some (t, m) →
          strContainsSub (upperAscii (pyStrip row.description)) "WALMART" = true →
          t.category = "Groceries") := by
  refine ⟨fun _ _ => rfl, fun _ _ _ _ => rfl, ?_⟩
  intro op cmap row t m h hw
  simp only [discoverRow] at h
  rw [if_pos hw] at h
  split at h
  · exact Option.noConfusion h
  · split at h
    · exact Option.noConfusion h
    · split at h
      · exact Option.noConfusion h
      · rw [if_pos (show "Groceries" ∈ standard_categories by decide)] at h
        simp only [Option.some.injEq, Prod.mk.injEq] at h
        rw [← h.1]

/-- C1 witness: the spec's WALMART example, with a category map that sends
the raw category `"Supermarkets"` to `"Shopping"`. -/
theorem c1_witness :
    discoverRow (fun _ => none) c1wmap c1wrow = some (c1wtrans, c1wmap)
      ∧ c1wtrans.category = "Groceries" :=
  ⟨by decide,
   c1_hardcoded_overrides.2.2 (fun _ => none) c1wmap c1wrow c1wtrans c1wmap
     (by decide) (by decide)⟩

/-- C2 counterexample: the transactions `c2tA, c2tB` form a single
two-member duplicate group; when the operator checks both checkboxes, zero
members survive — not exactly one. -/
theorem c2_counterexample :
    (find_duplicates [c2tA, c2tB]).map List.length = [2]
      ∧ afterResolution [c2tA, c2tB] (fun _ => true) = [] := by
  decide

/-- C2 (amended): duplicate resolution retains exactly the transactions the
operator left unchecked: a transaction (by index) is dropped iff it belongs
to some duplicate group and its checkbox is checked, so a group can lose
zero, one, or all of its members. -/
theorem c2_survivors_are_unchecked (ts : List Transaction) (sel : Nat → Bool) :
    afterResolution ts sel
      = (ts.enum.filter (fun p => !(inDupGroup ts p.1 && sel p.1))).map Prod.snd := by
  simp only [afterResolution]
  by_cases hg : (find_duplicates ts).isEmpty
  · rw [if_pos hg]
    have hnil : find_duplicates ts = [] := by
      cases h : find_duplicates ts with
      | nil => rfl
      | cons a l => rw [h] at hg; simp at hg
    have hall : ∀ p ∈ ts.enum, (!(inDupGroup ts p.1 && sel p.1)) = true := by
      intro p _
      simp [inDupGroup, hnil]
    rw [List.filter_eq_self.mpr hall, List.enum_map_snd]
  · rw [if_neg hg]
    congr 1
    apply List.filter_congr
    intro p _
    rw [contains_resolve_duplicates]

/-- C3 counterexample: a Discover row whose category is `"Payments &
Credits"` (with ampersand) is not dropped — it produces a transaction
(whose category, after a dismissed mapping prompt, is the raw string). -/
theorem c3_counterexample :
    ((read_discover [] (fun _ => none) [] [c3rowPC]).1).map (fun t => t.category)
      = ["Payments & Credits"] := by
  decide

/-- C3 (amended): the Discover adapter drops exactly the rows whose
upper-cased trimmed category is one of `"PAYMENTS AND CREDITS"`,
`"PAYMENTS"`, `"CREDITS"` — the `"Payments & Credits"` variant is not in
the skip list — and every row with a nonempty date cell, any other
category, and a parseable date produces a transaction. -/
theorem c3_discover_skip :
    (∀ (op : String → Option String) (cmap : List (String × String)) (row : DiscoverRow),
        row.transDate ≠ "" →
        upperAscii (pyStrip row.category) ∈ ["PAYMENTS AND CREDITS", "PAYMENTS", "CREDITS"] →
        discoverRow op cmap row = none)
      ∧ (∀ (op : String → Option String) (cmap : List (String × String))
            (row : DiscoverRow) (d : PyDate),
          parse_date row.transDate = some d →
          upperAscii (pyStrip row.category) ∉ ["PAYMENTS AND CREDITS", "PAYMENTS", "CREDITS"] →
          (discoverRow op cmap row).isSome = true) := by
  constructor
  · intro op cmap row hne hmem
    simp only [discoverRow]
    rw [if_neg hne, if_pos hmem]
  · intro op cmap row d hdate hmem
    have hne : row.transDate ≠ "" := by
      intro he
      rw [he, show parse_date "" = none from by decide] at hdate
      exact Option.noConfusion hdate
    simp only [discoverRow]
    rw [if_neg hne, if_neg hmem, hdate]
    dsimp only
    split <;> split <;> rfl

/-- C3 witness: a `"Credits"` row is dropped; a `"Supermarkets"` row with a
parseable date yields a record. -/
theorem c3_witness :
    discoverRow (fun _ => none) [] c3skipRow = none
      ∧ (discoverRow (fun _ => none) [] c3keepRow).isSome = true :=
  ⟨c3_discover_skip.1 (fun _ => none) [] c3skipRow (by decide) (by decide),
   c3_discover_skip.2 (fun _ => none) [] c3keepRow ⟨2024, 1, 15⟩ (by decide) (by decide)⟩

/-- C4 counterexample: the raw amount string `"1.005"` is accepted by amount
parsing, and the Chase adapter turns it into the amount `201/200`, which is
not an integer number of cents (`100 · 201/200` has denominator 2). -/
theorem c4_counterexample :
    (read_chase [] [c4row]).map (fun t => t.amount) = [mkRat 201 200]
      ∧ ¬(100 * (mkRat 201 200 : ℚ)).den = 1 := by
  decide

/-- C4 (amended): `parse_amount` performs no quantization — the amount is
the exact decimal value of the raw string; it is an integer number of cents
exactly when the string's own precision gives one, in particular whenever
the accepted numeral has no exponent and at most two fraction digits. -/
theorem c4_unquantized (s : String) (p : DecParse)
    (h : decRead (cleanAmount s) = some p) (hexp : p.exp10 = 0) (hs : p.scale ≤ 2) :
    (100 * parse_amount s).den = 1 := by
  have key : ∀ (m : ℤ) (sc : ℕ), sc ≤ 2 → (100 * mkRat m (10 ^ sc)).den = 1 := by
    intro m sc hsc
    interval_cases sc
    · have h0 : (100 * mkRat m (10 ^ 0)) = ((100 * m : ℤ) : ℚ) := by
        rw [Rat.mkRat_eq_div]; push_cast; ring
      rw [h0]; exact Rat.den_intCast _
    · have h1 : (100 * mkRat m (10 ^ 1)) = ((10 * m : ℤ) : ℚ) := by
        rw [Rat.mkRat_eq_div]; push_cast; ring
      rw [h1]; exact Rat.den_intCast _
    · have h2 : (100 * mkRat m (10 ^ 2)) = ((m : ℤ) : ℚ) := by
        rw [Rat.mkRat_eq_div]; push_cast; ring
      rw [h2]; exact Rat.den_intCast _
  unfold parse_amount
  rw [h]
  show (100 * p.val).den = 1
  obtain ⟨ng, mant, sc, ex⟩ := p
  simp only at hexp hs
  subst hexp
  simp only [DecParse.val]
  rw [if_pos (le_refl (0 : Int))]
  norm_num
  exact key _ sc hs

/-- C4 witness: `"$12.34"` parses with two fraction digits and no exponent,
and the resulting amount is an exact number of cents. -/
theorem c4_witness :
    decRead (cleanAmount "$12.34") = some ⟨false, 1234, 2, 0⟩
      ∧ (100 * parse_amount "$12.34").den = 1 :=
  ⟨by decide, c4_unquantized "$12.34" ⟨false, 1234, 2, 0⟩ (by decide) rfl (by decide)⟩

/-- C5 counterexample: the Vibrant adapter produces the category
`"Income"`, which is neither in the fixed enumerated category set nor the
string `"Uncategorized"` (which the program never produces at all). -/
theorem c5_counterexample :
    (read_vibrant [c5vrow]).map (fun t => t.category) = ["Income"]
      ∧ ¬("Income" ∈ standard_categories ∨ "Income" = "Uncategorized") := by
  decide

/-- C5 (amended): categories are not confined to the standard set:
Vibrant records carry `"Income"` or `"Bills & Utilities"`; Chase records
carry the raw issuer category unvalidated unless one of the three hardcoded
keyword overrides fires; and a category-mapping prompt dismissed without a
choice returns the unmapped name unchanged (never `"Uncategorized"`) and
persists nothing. -/
theorem c5_category_values :
    (∀ (row : VibrantRow) (t : Transaction), vibrantRowToTrans row = some t →
        t.category = "Income" ∨ t.category = "Bills & Utilities")
      ∧ (∀ (row : ChaseRow) (t : Transaction), chaseRowToTrans row = some t →
          t.category = pyStrip row.category
            ∨ t.category ∈ ["Health & Wellness", "Entertainment", "Professional Services"])
      ∧ (∀ (cmap : List (String × String)) (original current : String),
          lookupStr cmap original = none →
          prompt_category_mapping cmap none original current = (current, cmap)) := by
  refine ⟨?_, ?_, ?_⟩
  · intro row t h
    simp only [vibrantRowToTrans] at h
    split at h
    · exact Option.noConfusion h
    · split at h
      · exact Option.noConfusion h
      · simp only [Option.some.injEq] at h
        rw [← h]; dsimp only
        by_cases hc : 0 < parse_amount row.amount
        · exact Or.inl (if_pos hc)
        · exact Or.inr (if_neg hc)
  · intro row t h
    simp only [chaseRowToTrans] at h
    split at h
    · exact Option.noConfusion h
    · split at h
      · exact Option.noConfusion h
      · split at h
        · exact Option.noConfusion h
        · simp only [Option.some.injEq] at h
          rw [← h]; dsimp only
          split
          · exact Or.inr (by decide)
          · split
            · exact Or.inr (by decide)
            · split
              · exact Or.inr (by decide)
              · exact Or.inl rfl
  · intro cmap original current hl
    simp only [prompt_category_mapping, hl]

/-- C5 witness: a Vibrant deposit yields `"Income"`; a Chase row with raw
category `"Wholesale Clubs"` passes it through; a dismissed prompt for it
returns it unchanged with the map untouched. -/
theorem c5_witness :
    (c5vt.category = "Income" ∨ c5vt.category = "Bills & Utilities")
      ∧ (c5ct.category = pyStrip c5crow.category
          ∨ c5ct.category ∈ ["Health & Wellness", "Entertainment", "Professional Services"])
      ∧ prompt_category_mapping [] none "Wholesale Clubs" "Wholesale Clubs"
          = ("Wholesale Clubs", []) :=
  ⟨c5_category_values.1 c5vrow c5vt (by decide),
   c5_category_values.2.1 c5crow c5ct (by decide),
   c5_category_values.2.2 [] "Wholesale Clubs" "Wholesale Clubs" (by decide)⟩

/-- C6 counterexample: a transaction with category `'Income'` and amount
`-50` is counted into January's income total (which becomes `-50`), while
the claimed policy — sum of the amounts that are `> 0` — gives `0`. -/
theorem c6_counterexample :
    (lookupMonth (calculate_monthly_data [c6t]) "2024-01").income = -50
      ∧ (([c6t].filter (fun t => decide (monthKey t.date = "2024-01" ∧ 0 < t.amount))).map
          (fun t => t.amount)).sum = 0 := by
  decide

/-- C6 (amended): for every month, the income total is the sum of the
amounts of the transactions whose category is `'Income'` **or** whose
amount is positive (the code's disjunctive test at line 537); every other
transaction contributes its absolute amount to its category's spending and
to the month's total spending. -/
theorem c6_income_policy (ts : List Transaction) (mk : String) :
    (lookupMonth (calculate_monthly_data ts) mk).income = incomeSum ts mk
      ∧ (lookupMonth (calculate_monthly_data ts) mk).total_spending = spendSum ts mk
      ∧ ∀ cat, getD0 (lookupMonth (calculate_monthly_data ts) mk).spending cat
          = catSum ts mk cat := by
  refine ⟨?_, ?_, fun cat => ?_⟩
  · unfold calculate_monthly_data
    rw [income_foldl ts [] mk, lookupMonth_nil]
    show (0 : ℚ) + incomeSum ts mk = incomeSum ts mk
    rw [zero_add]
  · unfold calculate_monthly_data
    rw [total_foldl ts [] mk, lookupMonth_nil]
    show (0 : ℚ) + spendSum ts mk = spendSum ts mk
    rw [zero_add]
  · unfold calculate_monthly_data
    rw [cat_foldl ts [] mk cat, lookupMonth_nil]
    show (0 : ℚ) + catSum ts mk cat = catSum ts mk cat
    rw [zero_add]

/-- C7: sign canonicalization is issuer-specific — every Discover record's
amount is the negation of the parsed raw amount, and every Chase and
Vibrant record's amount is the parsed raw amount unchanged. -/
theorem c7_sign_canonicalization :
    (∀ (row : ChaseRow) (t : Transaction), chaseRowToTrans row = some t →
        t.amount = parse_amount row.amount)
      ∧ (∀ (op : String → Option String) (cmap : List (String × String))
            (row : DiscoverRow) (t : Transaction) (m : List (String × String)),
          discoverRow op cmap row = some (t, m) → t.amount = -parse_amount row.amount)
      ∧ (∀ (row : VibrantRow) (t : Transaction), vibrantRowToTrans row = some t →
          t.amount = parse_amount row.amount) := by
  refine ⟨?_, ?_, ?_⟩
  · intro row t h
    simp only [chaseRowToTrans] at h
    split at h
    · exact Option.noConfusion h
    · split at h
      · exact Option.noConfusion h
      · split at h
        · exact Option.noConfusion h
        · simp only [Option.some.injEq] at h
          rw [← h]
  · intro op cmap row t m h
    simp only [discoverRow] at h
    split at h
    · exact Option.noConfusion h
    · split at h
      · exact Option.noConfusion h
      · split at h
        · exact Option.noConfusion h
        · split at h
          · split at h
            · simp only [Option.some.injEq, Prod.mk.injEq] at h
              rw [← h.1]
            · simp only [Option.some.injEq, Prod.mk.injEq] at h
              rw [← h.1]
          · split at h
            · simp only [Option.some.injEq, Prod.mk.injEq] at h
              rw [← h.1]
            · simp only [Option.some.injEq, Prod.mk.injEq] at h
              rw [← h.1]
  · intro row t h
    simp only [vibrantRowToTrans] at h
    split at h
    · exact Option.noConfusion h
    · split at h
      · exact Option.noConfusion h
      · simp only [Option.some.injEq] at h
        rw [← h]

/-- C7 witness: one valid row of each issuer, with the produced amounts. -/
theorem c7_witness :
    c7ct.amount = parse_amount c7crow.amount
      ∧ c7dt.amount = -parse_amount c7drow.amount
      ∧ c7vt.amount = parse_amount c7vrow.amount :=
  ⟨c7_sign_canonicalization.1 c7crow c7ct (by decide),
   c7_sign_canonicalization.2.1 (fun _ => none) [] c7drow c7dt [] (by decide),
   c7_sign_canonicalization.2.2 c7vrow c7vt (by decide)⟩

/-- C8 counterexample: a skipped Chase `Payment` row leaves no trace — the
adapter's entire output for an input containing the row equals its output
for the input without it, and no skip count exists anywhere in the
program's data flow. -/
theorem c8_counterexample :
    chaseRowToTrans c8pay = none
      ∧ read_chase [] [c8pay, c8ok] = read_chase [] [c8ok] := by
  decide

/-- C8 (amended): adapters drop skipped rows silently — a skipped row is
simply absent from the returned transaction list, which is the adapter's
only output; no count of skipped rows is computed or reported. -/
theorem c8_silent_skip :
    (∀ (mr : List (String × String)) (row : ChaseRow) (rows : List ChaseRow),
        chaseRowToTrans row = none →
        read_chase mr (row :: rows) = read_chase mr rows)
      ∧ (∀ (mr : List (String × String)) (op : String → Option String)
            (cmap : List (String × String)) (row : DiscoverRow) (rows : List DiscoverRow),
          discoverRow op cmap row = none →
          read_discover mr op cmap (row :: rows) = read_discover mr op cmap rows) := by
  constructor
  · intro mr row rows h
    simp [read_chase, List.filterMap_cons, h]
  · intro mr op cmap row rows h
    simp only [read_discover, List.foldl_cons, h]

/-- C8 witness: the skipped rows of each adapter vanish from the output. -/
theorem c8_witness :
    chaseRowToTrans c8pay = none
      ∧ read_chase [] [c8pay] = read_chase [] []
      ∧ discoverRow (fun _ => none) [] c8dskip = none
      ∧ read_discover [] (fun _ => none) [] [c8dskip]
          = read_discover [] (fun _ => none) [] [] :=
  ⟨by decide,
   c8_silent_skip.1 [] c8pay [] (by decide),
   by decide,
   c8_silent_skip.2 [] (fun _ => none) [] c8dskip [] (by decide)⟩

/-- C9: for every category and every nonempty list of past months (with the
per-month spending dictionaries well-formed, i.e. distinct keys), the
per-category budget equals the sum over **all** past months of that month's
spending in the category (zero when absent) divided by the number of all
past months. -/
theorem c9_budget_average (monthly : List (String × MonthData)) (current cat : String)
    (hne : past_months monthly current ≠ [])
    (hnd : ∀ m ∈ past_months monthly current,
      ((lookupMonth monthly m).spending.map Prod.fst).Nodup) :
    getD0 (category_budgets monthly (past_months monthly current)) cat
      = ((past_months monthly current).map
            (fun m => getD0 (lookupMonth monthly m).spending cat)).sum
          / ((past_months monthly current).length : ℚ) := by
  rw [getD0_category_budgets]
  congr 1
  congr 1
  apply List.map_congr_left
  intro m hm
  rw [getD0_eq_entriesSum _ _ (hnd m hm)]

/-- C9 witness: two past months, the category present in only one of them:
the budget is `(50 + 0) / 2`. -/
theorem c9_witness :
    past_months c9monthly "2024-03" ≠ []
      ∧ getD0 (category_budgets c9monthly (past_months c9monthly "2024-03")) "Groceries"
          = ((past_months c9monthly "2024-03").map
                (fun m => getD0 (lookupMonth c9monthly m).spending "Groceries")).sum
              / ((past_months c9monthly "2024-03").length : ℚ) :=
  ⟨by decide,
   c9_budget_average c9monthly "2024-03" "Groceries" (by decide) (by decide)⟩

/-- C10: a Vibrant row whose parsed amount is not positive — in particular
exactly zero — is categorized `"Bills & Utilities"`; the category
`"Income"` occurs only for strictly positive amounts. -/
theorem c10_vibrant_zero (row : VibrantRow) (t : Transaction)
    (h : vibrantRowToTrans row = some t) :
    (t.amount ≤ 0 → t.category = "Bills & Utilities")
      ∧ (t.category = "Income" → 0 < t.amount) := by
  simp only [vibrantRowToTrans] at h
  split at h
  · exact Option.noConfusion h
  · split at h
    · exact Option.noConfusion h
    · simp only [Option.some.injEq] at h
      rw [← h]; dsimp only
      by_cases hc : 0 < parse_amount row.amount
      · refine ⟨fun hle => absurd hc (not_lt.mpr hle), fun _ => hc⟩
      · rw [if_neg hc]
        exact ⟨fun _ => rfl, fun hcat => absurd hcat (by decide)⟩

/-- C10 witness: the amount string `"0.00"` parses to zero and the produced
category is `"Bills & Utilities"`. -/
theorem c10_witness :
    vibrantRowToTrans c10row = some c10t
      ∧ c10t.amount ≤ 0
      ∧ c10t.category = "Bills & Utilities" :=
  ⟨by decide, by decide,
   (c10_vibrant_zero c10row c10t (by decide)).1 (by decide)⟩

end Claims
